import Mathlib

/-!
Shallow embedding of the LiveSplit.SonicASRT autosplitter core
(`src/src/lib.rs`): the debounced-watcher data model, the per-tick
`update_loop` sampler, the `start`/`split` decision predicates and the
`Addresses::init` signature-scan resolver, together with theorems that
settle the specification claims against these definitions.

Modelling conventions:
* machine integers (`u8`, `u32`) are `Nat`; `Duration` is `Int`
  milliseconds (the code only ever builds durations as
  `(float * 100.0) as i64 * 10` milliseconds, so a raw float sample is
  modelled by the already-truncated centisecond integer `Int`);
* every fallible memory read is an `Option` field of a per-tick
  `MemSample`: `none` is a failed read, `some v` a successful read of `v`;
* `asr::watcher::Watcher<T>` is `Option (Pair T)`; the `asr` pair
  predicates `changed`, `changed_to`, `increased` are reproduced;
* the six `[u8; 0x719]` zone blocks are `List Nat` samples, a failed
  block read degrading to the zero-filled block exactly as in the code.
-/

/-- A debounced pair of samples, as in `asr::watcher::Pair`. -/
structure Pair (α : Type) where
  old : α
  current : α
deriving DecidableEq, Repr

/-- `asr::watcher::Pair::changed`: the two samples differ. -/
def Pair.changed {α : Type} [DecidableEq α] (p : Pair α) : Bool :=
  decide (p.old ≠ p.current)

/-- `asr::watcher::Pair::changed_to`: the pair changed and now holds `v`. -/
def Pair.changed_to {α : Type} [DecidableEq α] (p : Pair α) (v : α) : Bool :=
  p.changed && decide (p.current = v)

/-- `asr::watcher::Pair::increased`: the current sample is larger than the old one. -/
def Pair.increased {α : Type} [LT α] [DecidableRel ((· < ·) : α → α → Prop)]
    (p : Pair α) : Bool :=
  decide (p.old < p.current)

/-- `asr::watcher::Watcher<T>`: an optional debounced pair (`None` until the
first sample arrives). -/
abbrev Watcher (α : Type) : Type := Option (Pair α)

/-- `asr::watcher::Watcher::update_infallible`: shift `current` into `old` and
store the new sample; the very first sample fills both slots. -/
def updateInfallible {α : Type} (w : Watcher α) (value : α) : Watcher α :=
  match w with
  | some p => some ⟨p.current, value⟩
  | none => some ⟨value, value⟩

/-- `Option::is_some_and` from the Rust standard library. -/
def isSomeAnd {α : Type} (o : Option α) (f : α → Bool) : Bool :=
  match o with
  | some a => f a
  | none => false

/-- The `GameMode` enumeration (the `GandPrix` spelling is the source's). -/
inductive GameMode where
  | WorldTour
  | GandPrix
  | TimeAttack
  | SingleRace
deriving DecidableEq, Repr

/-- The `Tracks` enumeration (the `SushineTour` spelling is the source's). -/
inductive Tracks where
  | OceanView
  | SambaStudios
  | CarrierZone
  | DragonCanyon
  | TempleTrouble
  | GalacticParade
  | SeasonalShrines
  | RoguesLanding
  | DreamValley
  | ChillyCastle
  | GraffitiCity
  | SanctuaryFalls
  | GraveyardGig
  | AddersLair
  | BurningDepths
  | RaceOfAges
  | SushineTour
  | ShibuyaDowntown
  | RouletteRoad
  | EggHangar
  | OutrunBay
deriving DecidableEq, Repr

/-- `asr::timer::TimerState`. -/
inductive TimerState where
  | NotRunning
  | Running
  | Paused
  | Ended
deriving DecidableEq, Repr

/-- The flat configuration surface (`Settings`): one enable flag per
splittable segment plus the master start flag.  The `_`-prefixed fields are
the section-header placeholders of the source and are never read by the
decision logic. -/
structure Settings where
  _start : Bool
  start : Bool
  _split_single : Bool
  ocean_view : Bool
  samba_studios : Bool
  carrier_zone : Bool
  dragon_canyon : Bool
  temple_trouble : Bool
  galactic_parade : Bool
  seasonal_shrines : Bool
  rogues_landing : Bool
  dream_valley : Bool
  chilly_castle : Bool
  graffiti_city : Bool
  sanctuary_falls : Bool
  graveyard_gig : Bool
  adders_lair : Bool
  burning_depths : Bool
  race_of_ages : Bool
  sunshine_tour : Bool
  shibuya_downtown : Bool
  roulette_road : Bool
  egg_hangar : Bool
  outrun_bay : Bool
  _world_tour : Bool
  coastal_cruise : Bool
  studio_scrapes : Bool
  battlezone_blast : Bool
  downtown_drift : Bool
  monkey_mayhem : Bool
  starry_speedway : Bool
  roulette_rush : Bool
  canyon_carnage : Bool
  snowball_shakedown : Bool
  banana_boost : Bool
  shinobi_scramble : Bool
  seaside_scrap : Bool
  tricky_traffic : Bool
  studio_scurry : Bool
  graffiti_groove : Bool
  shaking_skies : Bool
  neon_knockout : Bool
  pirate_plunder : Bool
  adder_assault : Bool
  dreamy_drive : Bool
  sanctuary_speedway : Bool
  keils_carnage : Bool
  carrier_crisis : Bool
  sunshine_slide : Bool
  rogue_rings : Bool
  seaside_skirmish : Bool
  shrine_time : Bool
  hangar_hassle : Bool
  booty_boost : Bool
  racing_rangers : Bool
  shinobi_showdown : Bool
  ruin_run : Bool
  monkey_brawl : Bool
  crumbling_chaos : Bool
  hatcher_hustle : Bool
  death_egg_duel : Bool
  undertaker_overtaker : Bool
  golden_gauntlet : Bool
  carnival_clash : Bool
  curien_curves : Bool
  molten_mayhem : Bool
  speeding_seasons : Bool
  burning_boost : Bool
  ocean_outrun : Bool
  billy_backslide : Bool
  carrier_charge : Bool
  jet_set_jaunt : Bool
  arcade_annihilation : Bool
  rapid_ruins : Bool
  zombie_zoom : Bool
  maracar_madness : Bool
  nightmare_meander : Bool
  maraca_melee : Bool
  castle_chaos : Bool
  volcano_velocity : Bool
  ranger_rush : Bool
  tokyo_takeover : Bool
  fatal_finale : Bool
deriving DecidableEq, Repr

/-- The mutable per-attachment state (`Watchers`): one debounced watcher per
sampled field plus the two accumulated in-game-time durations (`Int`
milliseconds). -/
structure Watchers where
  run_start : Watcher Bool
  end_credits : Watcher Bool
  game_mode : Watcher GameMode
  required_laps : Watcher Nat
  total_race_time : Watcher Int
  race_completed : Watcher Bool
  race_status : Watcher Nat
  igt : Watcher Int
  event_type : Watcher Nat
  track_id : Watcher Tracks
  total_igt : Int
  progress_igt : Int
  coastal_cruise : Watcher Nat
  studio_scrapes : Watcher Nat
  battlezone_blast : Watcher Nat
  downtown_drift : Watcher Nat
  monkey_mayhem : Watcher Nat
  starry_speedway : Watcher Nat
  roulette_rush : Watcher Nat
  canyon_carnage : Watcher Nat
  snowball_shakedown : Watcher Nat
  banana_boost : Watcher Nat
  shinobi_scramble : Watcher Nat
  seaside_scrap : Watcher Nat
  tricky_traffic : Watcher Nat
  studio_scurry : Watcher Nat
  graffiti_groove : Watcher Nat
  shaking_skies : Watcher Nat
  neon_knockout : Watcher Nat
  pirate_plunder : Watcher Nat
  adder_assault : Watcher Nat
  dreamy_drive : Watcher Nat
  sanctuary_speedway : Watcher Nat
  keils_carnage : Watcher Nat
  carrier_crisis : Watcher Nat
  sunshine_slide : Watcher Nat
  rogue_rings : Watcher Nat
  seaside_skirmish : Watcher Nat
  shrine_time : Watcher Nat
  hangar_hassle : Watcher Nat
  booty_boost : Watcher Nat
  racing_rangers : Watcher Nat
  shinobi_showdown : Watcher Nat
  ruin_run : Watcher Nat
  monkey_brawl : Watcher Nat
  crumbling_chaos : Watcher Nat
  hatcher_hustle : Watcher Nat
  death_egg_duel : Watcher Nat
  undertaker_overtaker : Watcher Nat
  golden_gauntlet : Watcher Nat
  carnival_clash : Watcher Nat
  curien_curves : Watcher Nat
  molten_mayhem : Watcher Nat
  speeding_seasons : Watcher Nat
  burning_boost : Watcher Nat
  ocean_outrun : Watcher Nat
  billy_backslide : Watcher Nat
  carrier_charge : Watcher Nat
  jet_set_jaunt : Watcher Nat
  arcade_annihilation : Watcher Nat
  rapid_ruins : Watcher Nat
  zombie_zoom : Watcher Nat
  maracar_madness : Watcher Nat
  nightmare_meander : Watcher Nat
  maraca_melee : Watcher Nat
  castle_chaos : Watcher Nat
  volcano_velocity : Watcher Nat
  ranger_rush : Watcher Nat
  tokyo_takeover : Watcher Nat
  fatal_finale : Watcher Nat

/-- `Watchers::default()`: a fresh attachment starts with every watcher empty
and both accumulators at zero. -/
def Watchers.default : Watchers where
  run_start := none
  end_credits := none
  game_mode := none
  required_laps := none
  total_race_time := none
  race_completed := none
  race_status := none
  igt := none
  event_type := none
  track_id := none
  total_igt := 0
  progress_igt := 0
  coastal_cruise := none
  studio_scrapes := none
  battlezone_blast := none
  downtown_drift := none
  monkey_mayhem := none
  starry_speedway := none
  roulette_rush := none
  canyon_carnage := none
  snowball_shakedown := none
  banana_boost := none
  shinobi_scramble := none
  seaside_scrap := none
  tricky_traffic := none
  studio_scurry := none
  graffiti_groove := none
  shaking_skies := none
  neon_knockout := none
  pirate_plunder := none
  adder_assault := none
  dreamy_drive := none
  sanctuary_speedway := none
  keils_carnage := none
  carrier_crisis := none
  sunshine_slide := none
  rogue_rings := none
  seaside_skirmish := none
  shrine_time := none
  hangar_hassle := none
  booty_boost := none
  racing_rangers := none
  shinobi_showdown := none
  ruin_run := none
  monkey_brawl := none
  crumbling_chaos := none
  hatcher_hustle := none
  death_egg_duel := none
  undertaker_overtaker := none
  golden_gauntlet := none
  carnival_clash := none
  curien_curves := none
  molten_mayhem := none
  speeding_seasons := none
  burning_boost := none
  ocean_outrun := none
  billy_backslide := none
  carrier_charge := none
  jet_set_jaunt := none
  arcade_annihilation := none
  rapid_ruins := none
  zombie_zoom := none
  maracar_madness := none
  nightmare_meander := none
  maraca_melee := none
  castle_chaos := none
  volcano_velocity := none
  ranger_rush := none
  tokyo_takeover := none
  fatal_finale := none

/-- The outcome of every fallible memory read of one tick of `update_loop`.
`none` is a failed read.  Raw float timer samples appear as the truncated
centisecond integer produced by `(t * 100.0) as i64`. -/
structure MemSample where
  run_start_raw : Option Nat
  run_start_2_raw : Option Nat
  end_credits : Option Bool
  mode_select : Option Nat
  required_laps : Option Nat
  total_race_time_centis : Option Int
  race_completed : Option Bool
  race_status : Option Nat
  igt_centis : Option Int
  event_type : Option Nat
  track_hash : Option Nat
  zone1 : Option (List Nat)
  zone2 : Option (List Nat)
  zone3 : Option (List Nat)
  zone4 : Option (List Nat)
  zone5 : Option (List Nat)
  zone6 : Option (List Nat)

/-- `Duration::milliseconds((t * 100.0) as i64 * 10)`: a duration built from
a truncated centisecond count is `c * 10` milliseconds. -/
def durFromCentis (c : Int) : Int := c * 10

/-- The boolean fed to the `run_start` watcher: both independent raw flags
must read exactly `1` (`is_ok_and(|value| value == 1)` on each). -/
def runStartSample (s : MemSample) : Bool :=
  decide (s.run_start_raw = some 1) && decide (s.run_start_2_raw = some 1)

/-- The `mode_select` decoding: raw bytes `0..3` map to the four modes, any
other byte (or a failed read) preserves the previous classification,
defaulting to `WorldTour` when no pair exists yet. -/
def decodeGameMode (raw : Option Nat) (prev : Watcher GameMode) : GameMode :=
  match raw with
  | some 0 => GameMode.WorldTour
  | some 1 => GameMode.GandPrix
  | some 2 => GameMode.TimeAttack
  | some 3 => GameMode.SingleRace
  | _ =>
    (prev.getD { current := GameMode.WorldTour, old := GameMode.WorldTour }).current

/-- The exhaustive hash-to-track mapping of the `track_id` match arms. -/
def trackFromHash (h : Nat) : Option Tracks :=
  match h with
  | 0xD4257EBD => some Tracks.OceanView
  | 0x32D305A8 => some Tracks.SambaStudios
  | 0xC72B3B98 => some Tracks.CarrierZone
  | 0x03EB7FFF => some Tracks.DragonCanyon
  | 0xE3121777 => some Tracks.TempleTrouble
  | 0x4E015AB6 => some Tracks.GalacticParade
  | 0x503C1CBC => some Tracks.SeasonalShrines
  | 0x7534B7CA => some Tracks.RoguesLanding
  | 0x38A394ED => some Tracks.DreamValley
  | 0xC5C9DEA1 => some Tracks.ChillyCastle
  | 0xD936550C => some Tracks.GraffitiCity
  | 0x4A0FF7AE => some Tracks.SanctuaryFalls
  | 0xCD8017BA => some Tracks.GraveyardGig
  | 0xDC93F18B => some Tracks.AddersLair
  | 0x2DB91FC2 => some Tracks.BurningDepths
  | 0x94610644 => some Tracks.RaceOfAges
  | 0xE6CD97F0 => some Tracks.SushineTour
  | 0xE87FDF22 => some Tracks.ShibuyaDowntown
  | 0x17463C8D => some Tracks.RouletteRoad
  | 0xFEBC639E => some Tracks.EggHangar
  | 0x1EF56CE1 => some Tracks.OutrunBay
  | _ => none

/-- The `track_id` decoding: a successfully read, known hash maps to its
track; a failed read or an unknown hash preserves the previous
classification, defaulting to `OceanView` when no pair exists yet. -/
def decodeTrack (raw : Option Nat) (prev : Watcher Tracks) : Tracks :=
  match raw with
  | some v =>
    match trackFromHash v with
    | some t => t
    | none =>
      (prev.getD { old := Tracks.OceanView, current := Tracks.OceanView }).current
  | none =>
    (prev.getD { old := Tracks.OceanView, current := Tracks.OceanView }).current

/-- The `required_laps` leaf of the player pointer chain: a failed chain or
leaf read keeps the previous current value (`Pair::default()` is zero). -/
def requiredLapsVal (s : MemSample) (w : Watchers) : Nat :=
  s.required_laps.getD (w.required_laps.getD { old := 0, current := 0 }).current

/-- The `total_race_time` leaf of the player pointer chain: a successful
float read becomes `durFromCentis`, a failure keeps the previous current. -/
def totalRaceTimeVal (s : MemSample) (w : Watchers) : Int :=
  match s.total_race_time_centis with
  | some c => durFromCentis c
  | none => (w.total_race_time.getD { old := 0, current := 0 }).current

/-- The raw in-game-timer sample: a successful float read becomes
`durFromCentis`, a failure keeps the previous current value. -/
def igtVal (s : MemSample) (w : Watchers) : Int :=
  match s.igt_centis with
  | some c => durFromCentis c
  | none => (w.igt.getD { old := 0, current := 0 }).current

/-- A zone's `[u8; 0x719]` block: a failed block read degrades to the
zero-filled block. -/
def zoneBytes (z : Option (List Nat)) : List Nat :=
  z.getD (List.replicate 0x719 0)

/-- The accumulated-time reconciliation step at the end of `update_loop`,
returning the new `(total_igt, progress_igt)`.  It consumes the pairs
updated earlier in the same tick plus the tick-local `required_laps` and
`total_race_time` values. -/
def reconcile (ts : TimerState) (race_completed : Watcher Bool)
    (igt : Watcher Int) (race_status : Watcher Nat)
    (game_mode : Watcher GameMode) (event_type : Watcher Nat)
    (required_laps : Nat) (total_race_time : Int)
    (total_igt progress_igt : Int) : Int × Int :=
  if ts = TimerState.NotRunning then
    (0, 0)
  else
    match race_completed with
    | some rc =>
      match igt with
      | some igtp =>
        if rc.current = false then
          match race_status with
          | some rs =>
            if igtp.changed_to 0 && decide (rs.old = 4) then
              (total_igt + igtp.old, total_igt + igtp.old)
            else
              (total_igt, total_igt + igtp.current)
          | none => (total_igt, progress_igt)
        else if rc.changed_to true then
          let add : Int :=
            if (isSomeAnd game_mode (fun gm => decide (gm.current = GameMode.WorldTour))
                  && decide (required_laps = 0xFF))
                || isSomeAnd event_type (fun et => decide (et.current = 0xE64B5DD8)) then
              igtp.current
            else
              total_race_time
          (total_igt + add, total_igt + add)
        else
          (total_igt, progress_igt)
      | none => (total_igt, progress_igt)
    | none => (total_igt, progress_igt)

/-- One tick of `update_loop`: every watcher is updated from its sample (a
failed read degrading to a default, sentinel, or the previous value), then
the accumulated in-game times are reconciled from the freshly updated
pairs. -/
def update_loop (ts : TimerState) (s : MemSample) (w : Watchers) : Watchers :=
  let game_mode := updateInfallible w.game_mode (decodeGameMode s.mode_select w.game_mode)
  let race_completed := updateInfallible w.race_completed (s.race_completed.getD false)
  let race_status := updateInfallible w.race_status (s.race_status.getD 0)
  let igt := updateInfallible w.igt (igtVal s w)
  let event_type := updateInfallible w.event_type (s.event_type.getD 0)
  let tp := reconcile ts race_completed igt race_status game_mode event_type
    (requiredLapsVal s w) (totalRaceTimeVal s w) w.total_igt w.progress_igt
  { run_start := updateInfallible w.run_start (runStartSample s)
    end_credits := updateInfallible w.end_credits (s.end_credits.getD false)
    game_mode := game_mode
    required_laps := updateInfallible w.required_laps (requiredLapsVal s w)
    total_race_time := updateInfallible w.total_race_time (totalRaceTimeVal s w)
    race_completed := race_completed
    race_status := race_status
    igt := igt
    event_type := event_type
    track_id := updateInfallible w.track_id (decodeTrack s.track_hash w.track_id)
    total_igt := tp.1
    progress_igt := tp.2
    coastal_cruise := updateInfallible w.coastal_cruise ((zoneBytes s.zone1).getD 0x7C 0)
    studio_scrapes := updateInfallible w.studio_scrapes ((zoneBytes s.zone1).getD 0x138 0)
    battlezone_blast := updateInfallible w.battlezone_blast ((zoneBytes s.zone1).getD 0x1F4 0)
    downtown_drift := updateInfallible w.downtown_drift ((zoneBytes s.zone1).getD 0x2B0 0)
    monkey_mayhem := updateInfallible w.monkey_mayhem ((zoneBytes s.zone1).getD 0x36C 0)
    starry_speedway := updateInfallible w.starry_speedway ((zoneBytes s.zone1).getD 0x428 0)
    roulette_rush := updateInfallible w.roulette_rush ((zoneBytes s.zone1).getD 0x4E4 0)
    canyon_carnage := updateInfallible w.canyon_carnage ((zoneBytes s.zone1).getD 0x5A0 0)
    snowball_shakedown := updateInfallible w.snowball_shakedown ((zoneBytes s.zone2).getD 0x7C 0)
    banana_boost := updateInfallible w.banana_boost ((zoneBytes s.zone2).getD 0x138 0)
    shinobi_scramble := updateInfallible w.shinobi_scramble ((zoneBytes s.zone2).getD 0x1F4 0)
    seaside_scrap := updateInfallible w.seaside_scrap ((zoneBytes s.zone2).getD 0x2B0 0)
    tricky_traffic := updateInfallible w.tricky_traffic ((zoneBytes s.zone2).getD 0x36C 0)
    studio_scurry := updateInfallible w.studio_scurry ((zoneBytes s.zone2).getD 0x428 0)
    graffiti_groove := updateInfallible w.graffiti_groove ((zoneBytes s.zone2).getD 0x4E4 0)
    shaking_skies := updateInfallible w.shaking_skies ((zoneBytes s.zone2).getD 0x5A0 0)
    neon_knockout := updateInfallible w.neon_knockout ((zoneBytes s.zone2).getD 0x65C 0)
    pirate_plunder := updateInfallible w.pirate_plunder ((zoneBytes s.zone2).getD 0x718 0)
    adder_assault := updateInfallible w.adder_assault ((zoneBytes s.zone3).getD 0x7C 0)
    dreamy_drive := updateInfallible w.dreamy_drive ((zoneBytes s.zone3).getD 0x138 0)
    sanctuary_speedway := updateInfallible w.sanctuary_speedway ((zoneBytes s.zone3).getD 0x1F4 0)
    keils_carnage := updateInfallible w.keils_carnage ((zoneBytes s.zone3).getD 0x2B0 0)
    carrier_crisis := updateInfallible w.carrier_crisis ((zoneBytes s.zone3).getD 0x36C 0)
    sunshine_slide := updateInfallible w.sunshine_slide ((zoneBytes s.zone3).getD 0x428 0)
    rogue_rings := updateInfallible w.rogue_rings ((zoneBytes s.zone3).getD 0x4E4 0)
    seaside_skirmish := updateInfallible w.seaside_skirmish ((zoneBytes s.zone3).getD 0x5A0 0)
    shrine_time := updateInfallible w.shrine_time ((zoneBytes s.zone3).getD 0x65C 0)
    hangar_hassle := updateInfallible w.hangar_hassle ((zoneBytes s.zone3).getD 0x718 0)
    booty_boost := updateInfallible w.booty_boost ((zoneBytes s.zone4).getD 0x7C 0)
    racing_rangers := updateInfallible w.racing_rangers ((zoneBytes s.zone4).getD 0x138 0)
    shinobi_showdown := updateInfallible w.shinobi_showdown ((zoneBytes s.zone4).getD 0x1F4 0)
    ruin_run := updateInfallible w.ruin_run ((zoneBytes s.zone4).getD 0x2B0 0)
    monkey_brawl := updateInfallible w.monkey_brawl ((zoneBytes s.zone4).getD 0x36C 0)
    crumbling_chaos := updateInfallible w.crumbling_chaos ((zoneBytes s.zone4).getD 0x428 0)
    hatcher_hustle := updateInfallible w.hatcher_hustle ((zoneBytes s.zone4).getD 0x4E4 0)
    death_egg_duel := updateInfallible w.death_egg_duel ((zoneBytes s.zone4).getD 0x5A0 0)
    undertaker_overtaker := updateInfallible w.undertaker_overtaker ((zoneBytes s.zone4).getD 0x65C 0)
    golden_gauntlet := updateInfallible w.golden_gauntlet ((zoneBytes s.zone4).getD 0x718 0)
    carnival_clash := updateInfallible w.carnival_clash ((zoneBytes s.zone5).getD 0x7C 0)
    curien_curves := updateInfallible w.curien_curves ((zoneBytes s.zone5).getD 0x138 0)
    molten_mayhem := updateInfallible w.molten_mayhem ((zoneBytes s.zone5).getD 0x1F4 0)
    speeding_seasons := updateInfallible w.speeding_seasons ((zoneBytes s.zone5).getD 0x2B0 0)
    burning_boost := updateInfallible w.burning_boost ((zoneBytes s.zone5).getD 0x36C 0)
    ocean_outrun := updateInfallible w.ocean_outrun ((zoneBytes s.zone5).getD 0x428 0)
    billy_backslide := updateInfallible w.billy_backslide ((zoneBytes s.zone5).getD 0x4E4 0)
    carrier_charge := updateInfallible w.carrier_charge ((zoneBytes s.zone5).getD 0x5A0 0)
    jet_set_jaunt := updateInfallible w.jet_set_jaunt ((zoneBytes s.zone5).getD 0x65C 0)
    arcade_annihilation := updateInfallible w.arcade_annihilation ((zoneBytes s.zone5).getD 0x718 0)
    rapid_ruins := updateInfallible w.rapid_ruins ((zoneBytes s.zone6).getD 0x7C 0)
    zombie_zoom := updateInfallible w.zombie_zoom ((zoneBytes s.zone6).getD 0x138 0)
    maracar_madness := updateInfallible w.maracar_madness ((zoneBytes s.zone6).getD 0x1F4 0)
    nightmare_meander := updateInfallible w.nightmare_meander ((zoneBytes s.zone6).getD 0x2B0 0)
    maraca_melee := updateInfallible w.maraca_melee ((zoneBytes s.zone6).getD 0x36C 0)
    castle_chaos := updateInfallible w.castle_chaos ((zoneBytes s.zone6).getD 0x428 0)
    volcano_velocity := updateInfallible w.volcano_velocity ((zoneBytes s.zone6).getD 0x4E4 0)
    ranger_rush := updateInfallible w.ranger_rush ((zoneBytes s.zone6).getD 0x5A0 0)
    tokyo_takeover := updateInfallible w.tokyo_takeover ((zoneBytes s.zone6).getD 0x65C 0)
    fatal_finale := updateInfallible w.fatal_finale ((zoneBytes s.zone6).getD 0x718 0) }

/-- The `start` decision predicate. -/
def start (w : Watchers) (s : Settings) : Bool :=
  if !s.start then
    false
  else if !(isSomeAnd w.run_start (fun value => value.changed_to true)) then
    false
  else
    match w.game_mode with
    | some x =>
      match x.current with
      | GameMode.GandPrix => true
      | GameMode.SingleRace => true
      | GameMode.WorldTour =>
        isSomeAnd w.coastal_cruise (fun value => decide (value.current = 0))
          && isSomeAnd w.canyon_carnage (fun value => decide (value.current = 0))
      | _ => false
    | _ => false

/-- The per-track enable flag consulted by the Grand-Prix / Single-Race
branch of `split`. -/
def trackSetting (s : Settings) (t : Tracks) : Bool :=
  match t with
  | Tracks.OceanView => s.ocean_view
  | Tracks.SambaStudios => s.samba_studios
  | Tracks.CarrierZone => s.carrier_zone
  | Tracks.DragonCanyon => s.dragon_canyon
  | Tracks.TempleTrouble => s.temple_trouble
  | Tracks.GalacticParade => s.galactic_parade
  | Tracks.SeasonalShrines => s.seasonal_shrines
  | Tracks.RoguesLanding => s.rogues_landing
  | Tracks.DreamValley => s.dream_valley
  | Tracks.ChillyCastle => s.chilly_castle
  | Tracks.GraffitiCity => s.graffiti_city
  | Tracks.SanctuaryFalls => s.sanctuary_falls
  | Tracks.GraveyardGig => s.graveyard_gig
  | Tracks.AddersLair => s.adders_lair
  | Tracks.BurningDepths => s.burning_depths
  | Tracks.RaceOfAges => s.race_of_ages
  | Tracks.SushineTour => s.sunshine_tour
  | Tracks.ShibuyaDowntown => s.shibuya_downtown
  | Tracks.RouletteRoad => s.roulette_road
  | Tracks.EggHangar => s.egg_hangar
  | Tracks.OutrunBay => s.outrun_bay

/-- The `split` decision predicate, branching on the current game mode. -/
def split (w : Watchers) (s : Settings) : Bool :=
  match w.game_mode with
  | some x =>
    match x.current with
    | GameMode.WorldTour =>
      (isSomeAnd w.coastal_cruise (fun value => value.increased) && s.coastal_cruise)
        || (isSomeAnd w.studio_scrapes (fun value => value.increased) && s.studio_scrapes)
        || (isSomeAnd w.battlezone_blast (fun value => value.increased) && s.battlezone_blast)
        || (isSomeAnd w.downtown_drift (fun value => value.increased) && s.downtown_drift)
        || (isSomeAnd w.monkey_mayhem (fun value => value.increased) && s.monkey_mayhem)
        || (isSomeAnd w.starry_speedway (fun value => value.increased) && s.starry_speedway)
        || (isSomeAnd w.roulette_rush (fun value => value.increased) && s.roulette_rush)
        || (isSomeAnd w.canyon_carnage (fun value => value.increased) && s.canyon_carnage)
        || (isSomeAnd w.snowball_shakedown (fun value => value.increased) && s.snowball_shakedown)
        || (isSomeAnd w.banana_boost (fun value => value.increased) && s.banana_boost)
        || (isSomeAnd w.shinobi_scramble (fun value => value.increased) && s.shinobi_scramble)
        || (isSomeAnd w.seaside_scrap (fun value => value.increased) && s.seaside_scrap)
        || (isSomeAnd w.tricky_traffic (fun value => value.increased) && s.tricky_traffic)
        || (isSomeAnd w.studio_scurry (fun value => value.increased) && s.studio_scurry)
        || (isSomeAnd w.graffiti_groove (fun value => value.increased) && s.graffiti_groove)
        || (isSomeAnd w.shaking_skies (fun value => value.increased) && s.shaking_skies)
        || (isSomeAnd w.neon_knockout (fun value => value.increased) && s.neon_knockout)
        || (isSomeAnd w.pirate_plunder (fun value => value.increased) && s.pirate_plunder)
        || (isSomeAnd w.adder_assault (fun value => value.increased) && s.adder_assault)
        || (isSomeAnd w.dreamy_drive (fun value => value.increased) && s.dreamy_drive)
        || (isSomeAnd w.sanctuary_speedway (fun value => value.increased) && s.sanctuary_speedway)
        || (isSomeAnd w.keils_carnage (fun value => value.increased) && s.keils_carnage)
        || (isSomeAnd w.carrier_crisis (fun value => value.increased) && s.carrier_crisis)
        || (isSomeAnd w.sunshine_slide (fun value => value.increased) && s.sunshine_slide)
        || (isSomeAnd w.rogue_rings (fun value => value.increased) && s.rogue_rings)
        || (isSomeAnd w.seaside_skirmish (fun value => value.increased) && s.seaside_skirmish)
        || (isSomeAnd w.shrine_time (fun value => value.increased) && s.shrine_time)
        || (isSomeAnd w.hangar_hassle (fun value => value.increased) && s.hangar_hassle)
        || (isSomeAnd w.booty_boost (fun value => value.increased) && s.booty_boost)
        || (isSomeAnd w.racing_rangers (fun value => value.increased) && s.racing_rangers)
        || (isSomeAnd w.shinobi_showdown (fun value => value.increased) && s.shinobi_showdown)
        || (isSomeAnd w.ruin_run (fun value => value.increased) && s.ruin_run)
        || (isSomeAnd w.monkey_brawl (fun value => value.increased) && s.monkey_brawl)
        || (isSomeAnd w.crumbling_chaos (fun value => value.increased) && s.crumbling_chaos)
        || (isSomeAnd w.hatcher_hustle (fun value => value.increased) && s.hatcher_hustle)
        || (isSomeAnd w.death_egg_duel (fun value => value.increased) && s.death_egg_duel)
        || (isSomeAnd w.undertaker_overtaker (fun value => value.increased) && s.undertaker_overtaker)
        || (isSomeAnd w.golden_gauntlet (fun value => value.increased) && s.golden_gauntlet)
        || (isSomeAnd w.carnival_clash (fun value => value.increased) && s.carnival_clash)
        || (isSomeAnd w.curien_curves (fun value => value.increased) && s.curien_curves)
        || (isSomeAnd w.molten_mayhem (fun value => value.increased) && s.molten_mayhem)
        || (isSomeAnd w.speeding_seasons (fun value => value.increased) && s.speeding_seasons)
        || (isSomeAnd w.burning_boost (fun value => value.increased) && s.burning_boost)
        || (isSomeAnd w.ocean_outrun (fun value => value.increased) && s.ocean_outrun)
        || (isSomeAnd w.billy_backslide (fun value => value.increased) && s.billy_backslide)
        || (isSomeAnd w.carrier_charge (fun value => value.increased) && s.carrier_charge)
        || (isSomeAnd w.jet_set_jaunt (fun value => value.increased) && s.jet_set_jaunt)
        || (isSomeAnd w.arcade_annihilation (fun value => value.changed_to 4) && s.arcade_annihilation)
        || (isSomeAnd w.end_credits (fun value => value.changed_to true)
            && isSomeAnd w.arcade_annihilation (fun value => decide (value.current ≠ 4))
            && s.arcade_annihilation)
        || (isSomeAnd w.rapid_ruins (fun value => value.increased) && s.rapid_ruins)
        || (isSomeAnd w.zombie_zoom (fun value => value.increased) && s.zombie_zoom)
        || (isSomeAnd w.maracar_madness (fun value => value.increased) && s.maracar_madness)
        || (isSomeAnd w.nightmare_meander (fun value => value.increased) && s.nightmare_meander)
        || (isSomeAnd w.maraca_melee (fun value => value.increased) && s.maraca_melee)
        || (isSomeAnd w.castle_chaos (fun value => value.increased) && s.castle_chaos)
        || (isSomeAnd w.volcano_velocity (fun value => value.increased) && s.volcano_velocity)
        || (isSomeAnd w.ranger_rush (fun value => value.increased) && s.ranger_rush)
        || (isSomeAnd w.tokyo_takeover (fun value => value.increased) && s.tokyo_takeover)
        || (isSomeAnd w.fatal_finale (fun value => value.increased && decide (value.current ≠ 4))
            && s.fatal_finale)
        || (isSomeAnd w.end_credits (fun value => value.changed_to true)
            && isSomeAnd w.fatal_finale (fun value => decide (value.current = 4))
            && s.fatal_finale)
    | GameMode.GandPrix =>
      isSomeAnd w.race_completed (fun value => value.changed_to true)
        && (match w.track_id with
            | some x => trackSetting s x.current
            | _ => false)
    | GameMode.SingleRace =>
      isSomeAnd w.race_completed (fun value => value.changed_to true)
        && (match w.track_id with
            | some x => trackSetting s x.current
            | _ => false)
    | _ => false
  | _ => false

/-- The `reset` decision predicate: always false for this title. -/
def reset (_w : Watchers) (_s : Settings) : Bool :=
  false

/-- The `is_loading` decision: always reports loading (game time advances
only while explicitly resumed). -/
def is_loading (_w : Watchers) (_s : Settings) : Option Bool :=
  some true

/-- The `game_time` decision: always reports `progress_igt`. -/
def game_time (w : Watchers) (_s : Settings) : Option Int :=
  some w.progress_igt

/-- `pe::MachineType`: only the 32-bit x86 tag is accepted by the locator. -/
inductive MachineType where
  | X86
  | X86_64
  | Arm64
deriving DecidableEq, Repr

/-- The resolved address record produced by `Addresses::init`. -/
structure Addresses where
  run_start : Nat
  run_start_2 : Nat
  end_credits : Nat
  mode_select : Nat
  player_base : Nat
  race_completed : Nat
  race_status : Nat
  igt : Nat
  event_type : Nat
  sunshine_coast : Nat
deriving DecidableEq, Repr

/-- The environment `Addresses::init` runs against: the module lookup, the
image-size read, the machine-type read, one first-match scan result per
byte signature, and the 32-bit pointer reads at arbitrary addresses. -/
structure InitEnv where
  module_base : Option Nat
  size_of_image : Option Nat
  machine_type : Option MachineType
  scan_run_start : Option Nat
  scan_run_start_2 : Option Nat
  scan_end_credits : Option Nat
  scan_mode_select : Option Nat
  scan_player_base : Option Nat
  scan_race_completed : Option Nat
  scan_race_status : Option Nat
  scan_igt : Option Nat
  scan_event_type : Option Nat
  scan_sunshine_coast : Option Nat
  read32 : Nat → Option Nat

/-- Resolve one signature: take the first scan match, add the signature's
fixed offset, and dereference one 32-bit pointer there.  Either step
failing fails the field. -/
def sigResolve (env : InitEnv) (scanned : Option Nat) (off : Nat) : Option Nat :=
  match scanned with
  | some p => env.read32 (p + off)
  | none => none

/-- `Addresses::init`: module lookup, image-size read and 32-bit machine
check, then the ten signature resolutions, every step fallible and any
failure collapsing the whole resolution to `none`. -/
def addressesInit (env : InitEnv) : Option Addresses :=
  match env.module_base with
  | none => none
  | some _ =>
    match env.size_of_image with
    | none => none
    | some _ =>
      match env.machine_type with
      | none => none
      | some mt =>
        if mt ≠ MachineType.X86 then
          none
        else
          match sigResolve env env.scan_run_start 2 with
          | none => none
          | some run_start =>
            match sigResolve env env.scan_run_start_2 4 with
            | none => none
            | some run_start_2 =>
              match sigResolve env env.scan_end_credits 3 with
              | none => none
              | some end_credits =>
                match sigResolve env env.scan_mode_select 1 with
                | none => none
                | some mode_select =>
                  match sigResolve env env.scan_player_base 1 with
                  | none => none
                  | some player_base =>
                    match sigResolve env env.scan_race_completed 4 with
                    | none => none
                    | some race_completed =>
                      match sigResolve env env.scan_race_status 4 with
                      | none => none
                      | some race_status =>
                        match sigResolve env env.scan_igt 2 with
                        | none => none
                        | some igt =>
                          match sigResolve env env.scan_event_type 5 with
                          | none => none
                          | some event_type =>
                            match sigResolve env env.scan_sunshine_coast 3 with
                            | none => none
                            | some sunshine_coast =>
                              some { run_start := run_start
                                     run_start_2 := run_start_2
                                     end_credits := end_credits
                                     mode_select := mode_select
                                     player_base := player_base
                                     race_completed := race_completed
                                     race_status := race_status
                                     igt := igt
                                     event_type := event_type
                                     sunshine_coast := sunshine_coast }

/-! Helper lemmas about the embedded primitives. -/

theorem updateInfallible_eq {α : Type} (w : Watcher α) (v : α) :
    updateInfallible w v = some ⟨(w.getD ⟨v, v⟩).current, v⟩ := by
  cases w <;> rfl

theorem updateInfallible_isSome {α : Type} (w : Watcher α) (v : α) :
    (updateInfallible w v).isSome = true := by
  cases w <;> rfl

theorem updateInfallible_map_current {α : Type} (w : Watcher α) (v : α) :
    (updateInfallible w v).map Pair.current = some v := by
  cases w <;> rfl

theorem Pair.changed_to_iff {α : Type} [DecidableEq α] (p : Pair α) (v : α) :
    p.changed_to v = true ↔ p.old ≠ v ∧ p.current = v := by
  unfold Pair.changed_to Pair.changed
  simp only [Bool.and_eq_true, decide_eq_true_eq]
  constructor
  · rintro ⟨h1, h2⟩
    subst h2
    exact ⟨h1, rfl⟩
  · rintro ⟨h1, h2⟩
    subst h2
    exact ⟨h1, rfl⟩

/-- A run-start or end-credits style boolean edge, in the spec's words: the
pair exists and transitions false to true. -/
theorem boolEdge_iff (o : Watcher Bool) :
    isSomeAnd o (fun value => value.changed_to true) = true ↔
      ∃ p, o = some p ∧ p.old = false ∧ p.current = true := by
  cases o with
  | none => simp [isSomeAnd]
  | some p => simp [isSomeAnd, Pair.changed_to_iff]

theorem currentEq_iff {α : Type} [DecidableEq α] (o : Watcher α) (v : α) :
    isSomeAnd o (fun value => decide (value.current = v)) = true ↔
      ∃ p, o = some p ∧ p.current = v := by
  cases o with
  | none => simp [isSomeAnd]
  | some p => simp [isSomeAnd]

/-! Spec-side predicates for the World-Tour branch of `split`, written in
the claim's vocabulary over the debounced pairs. -/

/-- An enabled per-segment counter whose debounced pair shows an increase. -/
def incClause (o : Watcher Nat) (flag : Bool) : Prop :=
  (∃ p, o = some p ∧ p.old < p.current) ∧ flag = true

/-- The end-credits flag transitions false to true. -/
def creditsEdge (o : Watcher Bool) : Prop :=
  ∃ p, o = some p ∧ p.old = false ∧ p.current = true

/-- A counter transitions to the final-stage sentinel value 4. -/
def toSentinel (o : Watcher Nat) : Prop :=
  ∃ p, o = some p ∧ p.old ≠ 4 ∧ p.current = 4

/-- A counter currently reads a value other than the sentinel 4. -/
def notAtSentinel (o : Watcher Nat) : Prop :=
  ∃ p, o = some p ∧ p.current ≠ 4

/-- A counter currently reads exactly the sentinel 4. -/
def atSentinel (o : Watcher Nat) : Prop :=
  ∃ p, o = some p ∧ p.current = 4

/-- A counter increases while ending at a value other than the sentinel 4. -/
def incNonSentinel (o : Watcher Nat) : Prop :=
  ∃ p, o = some p ∧ p.old < p.current ∧ p.current ≠ 4

theorem incClause_iff (o : Watcher Nat) (b : Bool) :
    (isSomeAnd o (fun value => value.increased) && b) = true ↔ incClause o b := by
  cases o with
  | none => simp [isSomeAnd, incClause]
  | some p => simp [isSomeAnd, incClause, Pair.increased]

theorem toSentinel_iff (o : Watcher Nat) (b : Bool) :
    (isSomeAnd o (fun value => value.changed_to 4) && b) = true ↔
      toSentinel o ∧ b = true := by
  cases o with
  | none => simp [isSomeAnd, toSentinel]
  | some p => simp [isSomeAnd, toSentinel, Pair.changed_to_iff]

theorem creditsNotSentinel_iff (e : Watcher Bool) (o : Watcher Nat) (b : Bool) :
    (isSomeAnd e (fun value => value.changed_to true)
        && isSomeAnd o (fun value => decide (value.current ≠ 4)) && b) = true ↔
      (creditsEdge e ∧ notAtSentinel o) ∧ b = true := by
  cases e <;> cases o <;>
    simp [isSomeAnd, creditsEdge, notAtSentinel, Pair.changed_to_iff, and_assoc]

theorem incNonSentinel_iff (o : Watcher Nat) (b : Bool) :
    (isSomeAnd o (fun value => value.increased && decide (value.current ≠ 4)) && b) = true ↔
      incNonSentinel o ∧ b = true := by
  cases o with
  | none => simp [isSomeAnd, incNonSentinel]
  | some p => simp [isSomeAnd, incNonSentinel, Pair.increased, and_assoc]

theorem creditsAtSentinel_iff (e : Watcher Bool) (o : Watcher Nat) (b : Bool) :
    (isSomeAnd e (fun value => value.changed_to true)
        && isSomeAnd o (fun value => decide (value.current = 4)) && b) = true ↔
      (creditsEdge e ∧ atSentinel o) ∧ b = true := by
  cases e <;> cases o <;>
    simp [isSomeAnd, creditsEdge, atSentinel, Pair.changed_to_iff, and_assoc]

/-- Doc: the World-Tour split condition exactly as the code computes it, in
the claim's vocabulary: one increase clause per ordinary segment, the two
sentinel-signalled segments handled asymmetrically (`arcade_annihilation`:
transition to 4, or credits edge while not at 4; `fatal_finale`: increase
ending away from 4, or credits edge while at 4). -/
def worldTourSplitCode (w : Watchers) (s : Settings) : Prop :=
  incClause w.coastal_cruise s.coastal_cruise ∨
  incClause w.studio_scrapes s.studio_scrapes ∨
  incClause w.battlezone_blast s.battlezone_blast ∨
  incClause w.downtown_drift s.downtown_drift ∨
  incClause w.monkey_mayhem s.monkey_mayhem ∨
  incClause w.starry_speedway s.starry_speedway ∨
  incClause w.roulette_rush s.roulette_rush ∨
  incClause w.canyon_carnage s.canyon_carnage ∨
  incClause w.snowball_shakedown s.snowball_shakedown ∨
  incClause w.banana_boost s.banana_boost ∨
  incClause w.shinobi_scramble s.shinobi_scramble ∨
  incClause w.seaside_scrap s.seaside_scrap ∨
  incClause w.tricky_traffic s.tricky_traffic ∨
  incClause w.studio_scurry s.studio_scurry ∨
  incClause w.graffiti_groove s.graffiti_groove ∨
  incClause w.shaking_skies s.shaking_skies ∨
  incClause w.neon_knockout s.neon_knockout ∨
  incClause w.pirate_plunder s.pirate_plunder ∨
  incClause w.adder_assault s.adder_assault ∨
  incClause w.dreamy_drive s.dreamy_drive ∨
  incClause w.sanctuary_speedway s.sanctuary_speedway ∨
  incClause w.keils_carnage s.keils_carnage ∨
  incClause w.carrier_crisis s.carrier_crisis ∨
  incClause w.sunshine_slide s.sunshine_slide ∨
  incClause w.rogue_rings s.rogue_rings ∨
  incClause w.seaside_skirmish s.seaside_skirmish ∨
  incClause w.shrine_time s.shrine_time ∨
  incClause w.hangar_hassle s.hangar_hassle ∨
  incClause w.booty_boost s.booty_boost ∨
  incClause w.racing_rangers s.racing_rangers ∨
  incClause w.shinobi_showdown s.shinobi_showdown ∨
  incClause w.ruin_run s.ruin_run ∨
  incClause w.monkey_brawl s.monkey_brawl ∨
  incClause w.crumbling_chaos s.crumbling_chaos ∨
  incClause w.hatcher_hustle s.hatcher_hustle ∨
  incClause w.death_egg_duel s.death_egg_duel ∨
  incClause w.undertaker_overtaker s.undertaker_overtaker ∨
  incClause w.golden_gauntlet s.golden_gauntlet ∨
  incClause w.carnival_clash s.carnival_clash ∨
  incClause w.curien_curves s.curien_curves ∨
  incClause w.molten_mayhem s.molten_mayhem ∨
  incClause w.speeding_seasons s.speeding_seasons ∨
  incClause w.burning_boost s.burning_boost ∨
  incClause w.ocean_outrun s.ocean_outrun ∨
  incClause w.billy_backslide s.billy_backslide ∨
  incClause w.carrier_charge s.carrier_charge ∨
  incClause w.jet_set_jaunt s.jet_set_jaunt ∨
  (toSentinel w.arcade_annihilation ∧ s.arcade_annihilation = true) ∨
  ((creditsEdge w.end_credits ∧ notAtSentinel w.arcade_annihilation) ∧
    s.arcade_annihilation = true) ∨
  incClause w.rapid_ruins s.rapid_ruins ∨
  incClause w.zombie_zoom s.zombie_zoom ∨
  incClause w.maracar_madness s.maracar_madness ∨
  incClause w.nightmare_meander s.nightmare_meander ∨
  incClause w.maraca_melee s.maraca_melee ∨
  incClause w.castle_chaos s.castle_chaos ∨
  incClause w.volcano_velocity s.volcano_velocity ∨
  incClause w.ranger_rush s.ranger_rush ∨
  incClause w.tokyo_takeover s.tokyo_takeover ∨
  (incNonSentinel w.fatal_finale ∧ s.fatal_finale = true) ∨
  ((creditsEdge w.end_credits ∧ atSentinel w.fatal_finale) ∧ s.fatal_finale = true)

/-- Doc: the World-Tour split condition exactly as claim C1 states it: any
enabled ordinary segment increases, or, for EACH of the two
sentinel-signalled segments, the counter transitions to the sentinel 4 or
the end-credits flag transitions false to true while that counter is not at
the sentinel, with that segment's enable flag set. -/
def worldTourSplitClaim (w : Watchers) (s : Settings) : Prop :=
  (incClause w.coastal_cruise s.coastal_cruise ∨
    incClause w.studio_scrapes s.studio_scrapes ∨
    incClause w.battlezone_blast s.battlezone_blast ∨
    incClause w.downtown_drift s.downtown_drift ∨
    incClause w.monkey_mayhem s.monkey_mayhem ∨
    incClause w.starry_speedway s.starry_speedway ∨
    incClause w.roulette_rush s.roulette_rush ∨
    incClause w.canyon_carnage s.canyon_carnage ∨
    incClause w.snowball_shakedown s.snowball_shakedown ∨
    incClause w.banana_boost s.banana_boost ∨
    incClause w.shinobi_scramble s.shinobi_scramble ∨
    incClause w.seaside_scrap s.seaside_scrap ∨
    incClause w.tricky_traffic s.tricky_traffic ∨
    incClause w.studio_scurry s.studio_scurry ∨
    incClause w.graffiti_groove s.graffiti_groove ∨
    incClause w.shaking_skies s.shaking_skies ∨
    incClause w.neon_knockout s.neon_knockout ∨
    incClause w.pirate_plunder s.pirate_plunder ∨
    incClause w.adder_assault s.adder_assault ∨
    incClause w.dreamy_drive s.dreamy_drive ∨
    incClause w.sanctuary_speedway s.sanctuary_speedway ∨
    incClause w.keils_carnage s.keils_carnage ∨
    incClause w.carrier_crisis s.carrier_crisis ∨
    incClause w.sunshine_slide s.sunshine_slide ∨
    incClause w.rogue_rings s.rogue_rings ∨
    incClause w.seaside_skirmish s.seaside_skirmish ∨
    incClause w.shrine_time s.shrine_time ∨
    incClause w.hangar_hassle s.hangar_hassle ∨
    incClause w.booty_boost s.booty_boost ∨
    incClause w.racing_rangers s.racing_rangers ∨
    incClause w.shinobi_showdown s.shinobi_showdown ∨
    incClause w.ruin_run s.ruin_run ∨
    incClause w.monkey_brawl s.monkey_brawl ∨
    incClause w.crumbling_chaos s.crumbling_chaos ∨
    incClause w.hatcher_hustle s.hatcher_hustle ∨
    incClause w.death_egg_duel s.death_egg_duel ∨
    incClause w.undertaker_overtaker s.undertaker_overtaker ∨
    incClause w.golden_gauntlet s.golden_gauntlet ∨
    incClause w.carnival_clash s.carnival_clash ∨
    incClause w.curien_curves s.curien_curves ∨
    incClause w.molten_mayhem s.molten_mayhem ∨
    incClause w.speeding_seasons s.speeding_seasons ∨
    incClause w.burning_boost s.burning_boost ∨
    incClause w.ocean_outrun s.ocean_outrun ∨
    incClause w.billy_backslide s.billy_backslide ∨
    incClause w.carrier_charge s.carrier_charge ∨
    incClause w.jet_set_jaunt s.jet_set_jaunt ∨
    incClause w.rapid_ruins s.rapid_ruins ∨
    incClause w.zombie_zoom s.zombie_zoom ∨
    incClause w.maracar_madness s.maracar_madness ∨
    incClause w.nightmare_meander s.nightmare_meander ∨
    incClause w.maraca_melee s.maraca_melee ∨
    incClause w.castle_chaos s.castle_chaos ∨
    incClause w.volcano_velocity s.volcano_velocity ∨
    incClause w.ranger_rush s.ranger_rush ∨
    incClause w.tokyo_takeover s.tokyo_takeover) ∨
  ((toSentinel w.arcade_annihilation ∨
      (creditsEdge w.end_credits ∧ notAtSentinel w.arcade_annihilation)) ∧
    s.arcade_annihilation = true) ∨
  ((toSentinel w.fatal_finale ∨
      (creditsEdge w.end_credits ∧ notAtSentinel w.fatal_finale)) ∧
    s.fatal_finale = true)

/-! Field characterizations of one `update_loop` tick (all definitional). -/

theorem update_loop_run_start (ts : TimerState) (s : MemSample) (w : Watchers) :
    (update_loop ts s w).run_start = updateInfallible w.run_start (runStartSample s) := rfl

theorem update_loop_end_credits (ts : TimerState) (s : MemSample) (w : Watchers) :
    (update_loop ts s w).end_credits = updateInfallible w.end_credits (s.end_credits.getD false) := rfl

theorem update_loop_game_mode (ts : TimerState) (s : MemSample) (w : Watchers) :
    (update_loop ts s w).game_mode =
      updateInfallible w.game_mode (decodeGameMode s.mode_select w.game_mode) := rfl

theorem update_loop_required_laps (ts : TimerState) (s : MemSample) (w : Watchers) :
    (update_loop ts s w).required_laps =
      updateInfallible w.required_laps (requiredLapsVal s w) := rfl

theorem update_loop_total_race_time (ts : TimerState) (s : MemSample) (w : Watchers) :
    (update_loop ts s w).total_race_time =
      updateInfallible w.total_race_time (totalRaceTimeVal s w) := rfl

theorem update_loop_race_completed (ts : TimerState) (s : MemSample) (w : Watchers) :
    (update_loop ts s w).race_completed =
      updateInfallible w.race_completed (s.race_completed.getD false) := rfl

theorem update_loop_race_status (ts : TimerState) (s : MemSample) (w : Watchers) :
    (update_loop ts s w).race_status =
      updateInfallible w.race_status (s.race_status.getD 0) := rfl

theorem update_loop_igt (ts : TimerState) (s : MemSample) (w : Watchers) :
    (update_loop ts s w).igt = updateInfallible w.igt (igtVal s w) := rfl

theorem update_loop_event_type (ts : TimerState) (s : MemSample) (w : Watchers) :
    (update_loop ts s w).event_type =
      updateInfallible w.event_type (s.event_type.getD 0) := rfl

theorem update_loop_track_id (ts : TimerState) (s : MemSample) (w : Watchers) :
    (update_loop ts s w).track_id =
      updateInfallible w.track_id (decodeTrack s.track_hash w.track_id) := rfl

theorem update_loop_total_igt (ts : TimerState) (s : MemSample) (w : Watchers) :
    (update_loop ts s w).total_igt =
      (reconcile ts (updateInfallible w.race_completed (s.race_completed.getD false))
        (updateInfallible w.igt (igtVal s w))
        (updateInfallible w.race_status (s.race_status.getD 0))
        (updateInfallible w.game_mode (decodeGameMode s.mode_select w.game_mode))
        (updateInfallible w.event_type (s.event_type.getD 0))
        (requiredLapsVal s w) (totalRaceTimeVal s w) w.total_igt w.progress_igt).1 := rfl

theorem update_loop_progress_igt (ts : TimerState) (s : MemSample) (w : Watchers) :
    (update_loop ts s w).progress_igt =
      (reconcile ts (updateInfallible w.race_completed (s.race_completed.getD false))
        (updateInfallible w.igt (igtVal s w))
        (updateInfallible w.race_status (s.race_status.getD 0))
        (updateInfallible w.game_mode (decodeGameMode s.mode_select w.game_mode))
        (updateInfallible w.event_type (s.event_type.getD 0))
        (requiredLapsVal s w) (totalRaceTimeVal s w) w.total_igt w.progress_igt).2 := rfl

/-! Concrete fixtures used by counterexamples and witnesses. -/

/-- The source's default configuration: every split flag enabled, the
master start flag enabled, section headers disabled. -/
def allOnSettings : Settings where
  _start := false
  start := true
  _split_single := false
  ocean_view := true
  samba_studios := true
  carrier_zone := true
  dragon_canyon := true
  temple_trouble := true
  galactic_parade := true
  seasonal_shrines := true
  rogues_landing := true
  dream_valley := true
  chilly_castle := true
  graffiti_city := true
  sanctuary_falls := true
  graveyard_gig := true
  adders_lair := true
  burning_depths := true
  race_of_ages := true
  sunshine_tour := true
  shibuya_downtown := true
  roulette_road := true
  egg_hangar := true
  outrun_bay := true
  _world_tour := false
  coastal_cruise := true
  studio_scrapes := true
  battlezone_blast := true
  downtown_drift := true
  monkey_mayhem := true
  starry_speedway := true
  roulette_rush := true
  canyon_carnage := true
  snowball_shakedown := true
  banana_boost := true
  shinobi_scramble := true
  seaside_scrap := true
  tricky_traffic := true
  studio_scurry := true
  graffiti_groove := true
  shaking_skies := true
  neon_knockout := true
  pirate_plunder := true
  adder_assault := true
  dreamy_drive := true
  sanctuary_speedway := true
  keils_carnage := true
  carrier_crisis := true
  sunshine_slide := true
  rogue_rings := true
  seaside_skirmish := true
  shrine_time := true
  hangar_hassle := true
  booty_boost := true
  racing_rangers := true
  shinobi_showdown := true
  ruin_run := true
  monkey_brawl := true
  crumbling_chaos := true
  hatcher_hustle := true
  death_egg_duel := true
  undertaker_overtaker := true
  golden_gauntlet := true
  carnival_clash := true
  curien_curves := true
  molten_mayhem := true
  speeding_seasons := true
  burning_boost := true
  ocean_outrun := true
  billy_backslide := true
  carrier_charge := true
  jet_set_jaunt := true
  arcade_annihilation := true
  rapid_ruins := true
  zombie_zoom := true
  maracar_madness := true
  nightmare_meander := true
  maraca_melee := true
  castle_chaos := true
  volcano_velocity := true
  ranger_rush := true
  tokyo_takeover := true
  fatal_finale := true

/-- A tick on which every memory read fails. -/
def sampleNone : MemSample where
  run_start_raw := none
  run_start_2_raw := none
  end_credits := none
  mode_select := none
  required_laps := none
  total_race_time_centis := none
  race_completed := none
  race_status := none
  igt_centis := none
  event_type := none
  track_hash := none
  zone1 := none
  zone2 := none
  zone3 := none
  zone4 := none
  zone5 := none
  zone6 := none

/-- A World-Tour state in which `fatal_finale` has just transitioned from 3
to the sentinel 4 and nothing else moved. -/
def cexWatchersC1 : Watchers :=
  { Watchers.default with
    game_mode := some ⟨GameMode.WorldTour, GameMode.WorldTour⟩
    end_credits := some ⟨false, false⟩
    fatal_finale := some ⟨3, 4⟩ }

/-- Claim C1 (counterexample): the claim treats the two sentinel-signalled
segments symmetrically, but for `fatal_finale` the code splits on an
increase ending away from 4 (not on a transition to 4) and on a credits
edge only while the counter IS at 4.  With `fatal_finale` transitioning
3 to 4 under World-Tour and every flag enabled, the claim demands a split
while `split` returns false. -/
theorem split_worldTour_claim_cex :
    ¬ (split cexWatchersC1 allOnSettings = true ↔
        worldTourSplitClaim cexWatchersC1 allOnSettings) := by
  intro h
  have hc : worldTourSplitClaim cexWatchersC1 allOnSettings := by
    unfold worldTourSplitClaim toSentinel
    refine Or.inr (Or.inr ⟨Or.inl ?_, rfl⟩)
    exact ⟨⟨3, 4⟩, rfl, by decide, rfl⟩
  exact absurd (h.mpr hc) (by decide)

/-- Claim C1 (amended): in World-Tour mode, `split` is true iff some
enabled ordinary per-segment counter's debounced pair shows an increase,
or, for `arcade_annihilation` (enabled), the counter transitions to the
sentinel 4 or the end-credits flag transitions false to true while the
counter is not at 4, or, for `fatal_finale` (enabled), the counter
increases to a value other than 4 or the end-credits flag transitions
false to true while the counter is at 4. -/
theorem split_worldTour_characterization (w : Watchers) (s : Settings)
    (gm : Pair GameMode) (hgm : w.game_mode = some gm)
    (hcur : gm.current = GameMode.WorldTour) :
    split w s = true ↔ worldTourSplitCode w s := by
  obtain ⟨go, gc⟩ := gm
  have hgc : gc = GameMode.WorldTour := hcur
  subst hgc
  simp only [split, hgm, Bool.or_eq_true, incClause_iff, toSentinel_iff,
    creditsNotSentinel_iff, incNonSentinel_iff, creditsAtSentinel_iff,
    worldTourSplitCode, or_assoc]

/-- A World-Tour state in which `coastal_cruise` has just increased from 0
to 1. -/
def witWatchersC1 : Watchers :=
  { Watchers.default with
    game_mode := some ⟨GameMode.WorldTour, GameMode.WorldTour⟩
    coastal_cruise := some ⟨0, 1⟩ }

/-- Witness for the amended claim C1 at a concrete state. -/
theorem split_worldTour_characterization_witness :
    split witWatchersC1 allOnSettings = true :=
  (split_worldTour_characterization witWatchersC1 allOnSettings
      ⟨GameMode.WorldTour, GameMode.WorldTour⟩ rfl rfl).mpr
    (Or.inl ⟨⟨⟨0, 1⟩, rfl, by decide⟩, rfl⟩)

theorem gpsr_branch_iff (w : Watchers) (s : Settings) :
    (isSomeAnd w.race_completed (fun value => value.changed_to true)
        && (match w.track_id with
            | some x => trackSetting s x.current
            | _ => false)) = true ↔
      ((∃ p, w.race_completed = some p ∧ p.old = false ∧ p.current = true) ∧
        (∃ t, w.track_id = some t ∧ trackSetting s t.current = true)) := by
  rw [Bool.and_eq_true, boolEdge_iff]
  cases w.track_id with
  | none => simp
  | some t => simp

/-- Claim C4: `start` is true only if the master start flag is set, the
run-start pair shows a false-to-true transition, and the mode is
Grand-Prix or Single-Race, or World-Tour with `coastal_cruise` and
`canyon_carnage` both currently zero; the run-start sample is true exactly
when both raw flags read 1; and with start enabled in Single-Race mode,
`start` is true exactly on the transition tick. -/
theorem start_characterization :
    (∀ (w : Watchers) (s : Settings), start w s = true →
      s.start = true ∧
      (∃ p, w.run_start = some p ∧ p.old = false ∧ p.current = true) ∧
      (∃ gm, w.game_mode = some gm ∧
        (gm.current = GameMode.GandPrix ∨ gm.current = GameMode.SingleRace ∨
          (gm.current = GameMode.WorldTour ∧
            (∃ pc, w.coastal_cruise = some pc ∧ pc.current = 0) ∧
            (∃ pk, w.canyon_carnage = some pk ∧ pk.current = 0))))) ∧
    (∀ (ts : TimerState) (s : MemSample) (w : Watchers), ∃ p,
      (update_loop ts s w).run_start = some p ∧
      (p.current = true ↔ (s.run_start_raw = some 1 ∧ s.run_start_2_raw = some 1))) ∧
    (∀ (w : Watchers) (s : Settings) (gm : Pair GameMode),
      s.start = true → w.game_mode = some gm → gm.current = GameMode.SingleRace →
      (start w s = true ↔
        ∃ p, w.run_start = some p ∧ p.old = false ∧ p.current = true)) := by
  refine ⟨?_, ?_, ?_⟩
  · intro w s h
    unfold start at h
    split at h
    · simp at h
    · split at h
      · simp at h
      · rename_i hs hr
        simp only [Bool.not_eq_true', Bool.not_eq_false] at hs hr
        refine ⟨hs, (boolEdge_iff w.run_start).mp hr, ?_⟩
        cases hgm : w.game_mode with
        | none => rw [hgm] at h; simp at h
        | some x =>
          rw [hgm] at h
          obtain ⟨xo, xc⟩ := x
          cases xc with
          | GandPrix => exact ⟨⟨xo, GameMode.GandPrix⟩, rfl, Or.inl rfl⟩
          | SingleRace => exact ⟨⟨xo, GameMode.SingleRace⟩, rfl, Or.inr (Or.inl rfl)⟩
          | TimeAttack => simp at h
          | WorldTour =>
            simp only [Bool.and_eq_true, currentEq_iff] at h
            exact ⟨⟨xo, GameMode.WorldTour⟩, rfl, Or.inr (Or.inr ⟨rfl, h.1, h.2⟩)⟩
  · intro ts s w
    rw [update_loop_run_start, updateInfallible_eq]
    refine ⟨_, rfl, ?_⟩
    unfold runStartSample
    simp
  · intro w s gm hs hgm hcur
    obtain ⟨go, gc⟩ := gm
    have hgc : gc = GameMode.SingleRace := hcur
    subst hgc
    cases hr : isSomeAnd w.run_start (fun value => value.changed_to true) with
    | true =>
      have hex := (boolEdge_iff w.run_start).mp hr
      simp [start, hs, hgm, hr, hex]
    | false =>
      have hne : ¬ ∃ p, w.run_start = some p ∧ p.old = false ∧ p.current = true := by
        rw [← boolEdge_iff]
        simp [hr]
      simp [start, hs, hgm, hr, hne]

/-- A Single-Race state in which the run-start pair has just transitioned
false to true. -/
def witWatchersC4 : Watchers :=
  { Watchers.default with
    game_mode := some ⟨GameMode.SingleRace, GameMode.SingleRace⟩
    run_start := some ⟨false, true⟩ }

/-- Witness for claim C4 at a concrete state. -/
theorem start_characterization_witness :
    start witWatchersC4 allOnSettings = true :=
  (start_characterization.2.2 witWatchersC4 allOnSettings
      ⟨GameMode.SingleRace, GameMode.SingleRace⟩ rfl rfl rfl).mpr
    ⟨⟨false, true⟩, rfl, rfl, rfl⟩

/-- Claim C6: in Grand-Prix or Single-Race mode, `split` is true iff the
race-completion pair transitions false to true and the per-track enable
flag of the currently identified track is set; it is false with an absent
track pair, in Time-Attack mode, and with an absent game-mode pair. -/
theorem split_grandprix_singlerace :
    (∀ (w : Watchers) (s : Settings) (gm : Pair GameMode),
      w.game_mode = some gm →
      (gm.current = GameMode.GandPrix ∨ gm.current = GameMode.SingleRace) →
      (split w s = true ↔
        ((∃ p, w.race_completed = some p ∧ p.old = false ∧ p.current = true) ∧
          (∃ t, w.track_id = some t ∧ trackSetting s t.current = true)))) ∧
    (∀ (w : Watchers) (s : Settings) (gm : Pair GameMode),
      w.game_mode = some gm →
      (gm.current = GameMode.GandPrix ∨ gm.current = GameMode.SingleRace) →
      w.track_id = none → split w s = false) ∧
    (∀ (w : Watchers) (s : Settings) (gm : Pair GameMode),
      w.game_mode = some gm → gm.current = GameMode.TimeAttack →
      split w s = false) ∧
    (∀ (w : Watchers) (s : Settings), w.game_mode = none → split w s = false) := by
  refine ⟨?_, ?_, ?_, ?_⟩
  · intro w s gm hgm hmode
    obtain ⟨go, gc⟩ := gm
    rcases hmode with hgc | hgc
    · have h' : gc = GameMode.GandPrix := hgc
      subst h'
      simp only [split, hgm]
      exact gpsr_branch_iff w s
    · have h' : gc = GameMode.SingleRace := hgc
      subst h'
      simp only [split, hgm]
      exact gpsr_branch_iff w s
  · intro w s gm hgm hmode htr
    obtain ⟨go, gc⟩ := gm
    rcases hmode with hgc | hgc
    · have h' : gc = GameMode.GandPrix := hgc
      subst h'
      simp [split, hgm, htr]
    · have h' : gc = GameMode.SingleRace := hgc
      subst h'
      simp [split, hgm, htr]
  · intro w s gm hgm hcur
    obtain ⟨go, gc⟩ := gm
    have h' : gc = GameMode.TimeAttack := hcur
    subst h'
    simp [split, hgm]
  · intro w s hgm
    simp [split, hgm]

/-- A Single-Race state in which the race-completion pair has just
transitioned false to true on Ocean View. -/
def witWatchersC6 : Watchers :=
  { Watchers.default with
    game_mode := some ⟨GameMode.SingleRace, GameMode.SingleRace⟩
    race_completed := some ⟨false, true⟩
    track_id := some ⟨Tracks.OceanView, Tracks.OceanView⟩ }

/-- Witness for claim C6 at a concrete state. -/
theorem split_grandprix_singlerace_witness :
    split witWatchersC6 allOnSettings = true :=
  (split_grandprix_singlerace.1 witWatchersC6 allOnSettings
      ⟨GameMode.SingleRace, GameMode.SingleRace⟩ rfl (Or.inr rfl)).mpr
    ⟨⟨⟨false, true⟩, rfl, rfl, rfl⟩, ⟨⟨Tracks.OceanView, Tracks.OceanView⟩, rfl, rfl⟩⟩

/-- Claim C2: on a tick where the timer is not not-running and the
race-completion pair's current value is false, a raw-timer reset-to-zero
transition with previous race-status 4 folds the old timer value into
`total_igt` and sets `progress_igt` to it; otherwise `progress_igt`
becomes `total_igt` plus the current raw timer value. -/
theorem igt_reconciliation_in_race (ts : TimerState) (s : MemSample) (w : Watchers)
    (hts : ts ≠ TimerState.NotRunning)
    (rc : Pair Bool) (hrc : (update_loop ts s w).race_completed = some rc)
    (hfalse : rc.current = false)
    (ip : Pair Int) (hip : (update_loop ts s w).igt = some ip)
    (rs : Pair Nat) (hrs : (update_loop ts s w).race_status = some rs) :
    ((ip.current = 0 ∧ ip.old ≠ 0 ∧ rs.old = 4) →
      (update_loop ts s w).total_igt = w.total_igt + ip.old ∧
      (update_loop ts s w).progress_igt = (update_loop ts s w).total_igt) ∧
    (¬ (ip.current = 0 ∧ ip.old ≠ 0 ∧ rs.old = 4) →
      (update_loop ts s w).total_igt = w.total_igt ∧
      (update_loop ts s w).progress_igt = (update_loop ts s w).total_igt + ip.current) := by
  rw [update_loop_race_completed] at hrc
  rw [update_loop_igt] at hip
  rw [update_loop_race_status] at hrs
  rw [update_loop_total_igt, update_loop_progress_igt, hrc, hip, hrs]
  unfold reconcile
  rw [if_neg hts]
  simp only [hfalse]
  constructor
  · rintro ⟨h0, hne, h4⟩
    have hcond : (ip.changed_to 0 && decide (rs.old = 4)) = true := by
      rw [Bool.and_eq_true, Pair.changed_to_iff]
      exact ⟨⟨hne, h0⟩, by simp [h4]⟩
    rw [if_pos trivial, if_pos hcond]
    exact ⟨rfl, rfl⟩
  · intro hn
    have hcond : ¬ ((ip.changed_to 0 && decide (rs.old = 4)) = true) := by
      rw [Bool.and_eq_true, Pair.changed_to_iff]
      rintro ⟨⟨hne, h0⟩, h4⟩
      exact hn ⟨h0, hne, by simpa using h4⟩
    rw [if_pos trivial, if_neg hcond]
    exact ⟨rfl, rfl⟩

/-- A tick on which the race is still in progress: completion flag reads
false, raw timer reads 0.05 s, race status reads 0. -/
def witSampleC2 : MemSample :=
  { sampleNone with
    race_completed := some false
    igt_centis := some 5
    race_status := some 0 }

/-- Witness for claim C2 at a concrete tick. -/
theorem igt_reconciliation_in_race_witness :
    (update_loop TimerState.Running witSampleC2 Watchers.default).total_igt =
      Watchers.default.total_igt ∧
    (update_loop TimerState.Running witSampleC2 Watchers.default).progress_igt =
      (update_loop TimerState.Running witSampleC2 Watchers.default).total_igt + 50 :=
  (igt_reconciliation_in_race TimerState.Running witSampleC2 Watchers.default
      (by decide) ⟨false, false⟩ rfl rfl ⟨50, 50⟩ rfl ⟨0, 0⟩ rfl).2 (by decide)

theorem reconcile_completion (ts : TimerState) (hts : ts ≠ TimerState.NotRunning)
    (igtp : Pair Int) (rs : Watcher Nat) (gm : Watcher GameMode) (et : Watcher Nat)
    (rl : Nat) (trt total progress : Int) :
    reconcile ts (some ⟨false, true⟩) (some igtp) rs gm et rl trt total progress =
      (total + (if (isSomeAnd gm (fun g => decide (g.current = GameMode.WorldTour))
              && decide (rl = 0xFF))
            || isSomeAnd et (fun e => decide (e.current = 0xE64B5DD8)) then
          igtp.current
        else
          trt),
       total + (if (isSomeAnd gm (fun g => decide (g.current = GameMode.WorldTour))
              && decide (rl = 0xFF))
            || isSomeAnd et (fun e => decide (e.current = 0xE64B5DD8)) then
          igtp.current
        else
          trt)) := by
  unfold reconcile
  rw [if_neg hts]
  simp [Pair.changed_to, Pair.changed]

/-- Claim C3: on a tick where the timer is not not-running and the
race-completion pair transitions false to true, `total_igt` grows by the
live raw timer value when the mode is World-Tour with `required_laps`
0xFF or the event identifier is the marathon code 0xE64B5DD8, and by the
official total-race-time value otherwise; `progress_igt` then equals
`total_igt`. -/
theorem igt_race_completed_update (ts : TimerState) (s : MemSample) (w : Watchers)
    (hts : ts ≠ TimerState.NotRunning)
    (rc : Pair Bool) (hrc : (update_loop ts s w).race_completed = some rc)
    (hold : rc.old = false) (hcur : rc.current = true)
    (ip : Pair Int) (hip : (update_loop ts s w).igt = some ip)
    (rl : Pair Nat) (hrl : (update_loop ts s w).required_laps = some rl)
    (tr : Pair Int) (htr : (update_loop ts s w).total_race_time = some tr) :
    ((((∃ gm, (update_loop ts s w).game_mode = some gm ∧
            gm.current = GameMode.WorldTour) ∧ rl.current = 0xFF) ∨
        (∃ et, (update_loop ts s w).event_type = some et ∧
          et.current = 0xE64B5DD8)) →
      (update_loop ts s w).total_igt = w.total_igt + ip.current ∧
      (update_loop ts s w).progress_igt = (update_loop ts s w).total_igt) ∧
    (¬ ((((∃ gm, (update_loop ts s w).game_mode = some gm ∧
            gm.current = GameMode.WorldTour) ∧ rl.current = 0xFF) ∨
        (∃ et, (update_loop ts s w).event_type = some et ∧
          et.current = 0xE64B5DD8))) →
      (update_loop ts s w).total_igt = w.total_igt + tr.current ∧
      (update_loop ts s w).progress_igt = (update_loop ts s w).total_igt) := by
  obtain ⟨ro, rcur⟩ := rc
  have h1 : ro = false := hold
  have h2 : rcur = true := hcur
  subst h1
  subst h2
  rw [update_loop_race_completed] at hrc
  rw [update_loop_igt] at hip
  have hrlc : rl.current = requiredLapsVal s w := by
    rw [update_loop_required_laps, updateInfallible_eq] at hrl
    have h := Option.some.inj hrl
    rw [← h]
  have htrc : tr.current = totalRaceTimeVal s w := by
    rw [update_loop_total_race_time, updateInfallible_eq] at htr
    have h := Option.some.inj htr
    rw [← h]
  have hcond :
      (((isSomeAnd (updateInfallible w.game_mode (decodeGameMode s.mode_select w.game_mode))
              (fun g => decide (g.current = GameMode.WorldTour))
            && decide (requiredLapsVal s w = 0xFF))
          || isSomeAnd (updateInfallible w.event_type (s.event_type.getD 0))
              (fun e => decide (e.current = 0xE64B5DD8))) = true) ↔
        ((((∃ gm, (update_loop ts s w).game_mode = some gm ∧
              gm.current = GameMode.WorldTour) ∧ rl.current = 0xFF) ∨
          (∃ et, (update_loop ts s w).event_type = some et ∧
            et.current = 0xE64B5DD8))) := by
    rw [Bool.or_eq_true, Bool.and_eq_true, currentEq_iff, currentEq_iff,
      decide_eq_true_eq, hrlc, update_loop_game_mode, update_loop_event_type]
  rw [update_loop_total_igt, update_loop_progress_igt, hrc, hip,
    reconcile_completion ts hts ip _ _ _ _ _ _ _]
  constructor
  · intro h
    rw [if_pos (hcond.mpr h)]
    exact ⟨rfl, rfl⟩
  · intro h
    rw [if_neg (fun hc => h (hcond.mp hc))]
    exact ⟨by rw [htrc], rfl⟩

/-- A tick on which the race-completion flag flips to true during the
marathon event, with the raw timer reading 0.12 s. -/
def witSampleC3 : MemSample :=
  { sampleNone with
    race_completed := some true
    igt_centis := some 12
    event_type := some 0xE64B5DD8 }

/-- A state in which the race-completion pair previously read false. -/
def witWatchersC3 : Watchers :=
  { Watchers.default with race_completed := some ⟨false, false⟩ }

/-- Witness for claim C3 at a concrete tick. -/
theorem igt_race_completed_update_witness :
    (update_loop TimerState.Running witSampleC3 witWatchersC3).total_igt =
      witWatchersC3.total_igt + 120 ∧
    (update_loop TimerState.Running witSampleC3 witWatchersC3).progress_igt =
      (update_loop TimerState.Running witSampleC3 witWatchersC3).total_igt :=
  (igt_race_completed_update TimerState.Running witSampleC3 witWatchersC3
      (by decide) ⟨false, true⟩ rfl rfl rfl ⟨120, 120⟩ rfl ⟨0, 0⟩ rfl ⟨0, 0⟩ rfl).1
    (Or.inr ⟨⟨0xE64B5DD8, 0xE64B5DD8⟩, rfl, rfl⟩)

/-- Tick sample: the race is running and not yet completed. -/
def cexSampleC5a : MemSample := { sampleNone with race_completed := some false }

/-- Tick sample: the race-completion flag flips to true with an official
total race time of 0.10 s. -/
def cexSampleC5b : MemSample :=
  { sampleNone with
    race_completed := some true
    total_race_time_centis := some 10 }

def cexTick1 : Watchers := update_loop TimerState.Running cexSampleC5a Watchers.default

def cexTick2 : Watchers := update_loop TimerState.Running cexSampleC5b cexTick1

def cexTick3 : Watchers := update_loop TimerState.NotRunning sampleNone cexTick2

/-- Claim C5 (counterexample): `total_igt` does decrease between
consecutive ticks of one attachment: after a race completion accumulates
100 ms, a not-running tick zeroes the accumulator, a strict decrease. -/
theorem total_igt_decrease_cex :
    cexTick2.total_igt = 100 ∧ cexTick3.total_igt = 0 ∧
    cexTick3.total_igt < cexTick2.total_igt := by
  refine ⟨by decide, by decide, by decide⟩

/-- Claim C5 (amended): a not-running tick sets both accumulators to
exactly zero; on any other tick `total_igt` never decreases provided every
sampled duration and every previously sampled duration is non-negative. -/
theorem total_igt_monotone_amended (ts : TimerState) (s : MemSample) (w : Watchers) :
    (ts = TimerState.NotRunning →
      (update_loop ts s w).total_igt = 0 ∧ (update_loop ts s w).progress_igt = 0) ∧
    (ts ≠ TimerState.NotRunning →
      (∀ c, s.igt_centis = some c → 0 ≤ c) →
      (∀ c, s.total_race_time_centis = some c → 0 ≤ c) →
      (∀ p, w.igt = some p → 0 ≤ p.current) →
      (∀ p, w.total_race_time = some p → 0 ≤ p.current) →
      w.total_igt ≤ (update_loop ts s w).total_igt) := by
  constructor
  · intro h
    rw [update_loop_total_igt, update_loop_progress_igt]
    unfold reconcile
    rw [if_pos h]
    exact ⟨rfl, rfl⟩
  · intro hts h1 h2 h3 h4
    have higtv : 0 ≤ igtVal s w := by
      unfold igtVal
      cases hc : s.igt_centis with
      | some c =>
        have hcc := h1 c hc
        show (0 : Int) ≤ c * 10
        omega
      | none =>
        cases hp : w.igt with
        | some p => exact h3 p hp
        | none => exact le_refl 0
    have higtold : 0 ≤ (w.igt.getD ⟨igtVal s w, igtVal s w⟩).current := by
      cases hp : w.igt with
      | some p => exact h3 p hp
      | none => exact higtv
    have htrtv : 0 ≤ totalRaceTimeVal s w := by
      unfold totalRaceTimeVal
      cases hc : s.total_race_time_centis with
      | some c =>
        have hcc := h2 c hc
        show (0 : Int) ≤ c * 10
        omega
      | none =>
        cases hp : w.total_race_time with
        | some p => exact h4 p hp
        | none => exact le_refl 0
    rw [update_loop_total_igt]
    unfold reconcile
    rw [if_neg hts]
    simp only [updateInfallible_eq]
    split_ifs <;> simp <;> omega

/-- Witness for the amended claim C5: zeroing on a not-running tick and
monotonicity across an all-reads-failed running tick, both at concrete
inputs. -/
theorem total_igt_monotone_amended_witness :
    (update_loop TimerState.NotRunning sampleNone Watchers.default).total_igt = 0 ∧
    Watchers.default.total_igt ≤
      (update_loop TimerState.Running sampleNone Watchers.default).total_igt :=
  ⟨((total_igt_monotone_amended TimerState.NotRunning sampleNone Watchers.default).1 rfl).1,
   (total_igt_monotone_amended TimerState.Running sampleNone Watchers.default).2
     (by decide) (fun c hc => nomatch hc) (fun c hc => nomatch hc)
     (fun p hp => nomatch hp) (fun p hp => nomatch hp)⟩

/-- The raw byte decoded for the `mode_select` enumeration: only bytes
0 to 3 are known. -/
def gameModeFromRaw (v : Nat) : Option GameMode :=
  match v with
  | 0 => some GameMode.WorldTour
  | 1 => some GameMode.GandPrix
  | 2 => some GameMode.TimeAttack
  | 3 => some GameMode.SingleRace
  | _ => none

/-- Claim C7: on a tick whose raw enumerated sample has no known mapping
(or failed to read), the updated pair's current classification equals the
previous current classification, defaulting to the baseline variant
(WorldTour, OceanView) only when no pair exists yet; in particular an
unmapped track hash after OceanView leaves the classification OceanView. -/
theorem sticky_unknown_classification :
    (∀ (ts : TimerState) (s : MemSample) (w : Watchers),
      s.mode_select.bind gameModeFromRaw = none →
      ((update_loop ts s w).game_mode.map Pair.current) =
        some ((w.game_mode.map Pair.current).getD GameMode.WorldTour)) ∧
    (∀ (ts : TimerState) (s : MemSample) (w : Watchers),
      s.track_hash.bind trackFromHash = none →
      ((update_loop ts s w).track_id.map Pair.current) =
        some ((w.track_id.map Pair.current).getD Tracks.OceanView)) ∧
    (∀ (ts : TimerState) (s : MemSample) (w : Watchers) (p : Pair Tracks),
      w.track_id = some p → p.current = Tracks.OceanView →
      s.track_hash.bind trackFromHash = none →
      ((update_loop ts s w).track_id.map Pair.current) = some Tracks.OceanView) := by
  have hmode : ∀ (s : MemSample) (w : Watchers),
      s.mode_select.bind gameModeFromRaw = none →
      decodeGameMode s.mode_select w.game_mode =
        ((w.game_mode.map Pair.current).getD GameMode.WorldTour) := by
    intro s w h
    cases hm : s.mode_select with
    | none => cases w.game_mode <;> rfl
    | some v =>
      rw [hm] at h
      rcases v with _ | _ | _ | _ | n
      · simp [gameModeFromRaw] at h
      · simp [gameModeFromRaw] at h
      · simp [gameModeFromRaw] at h
      · simp [gameModeFromRaw] at h
      · cases w.game_mode <;> rfl
  have htrack : ∀ (s : MemSample) (w : Watchers),
      s.track_hash.bind trackFromHash = none →
      decodeTrack s.track_hash w.track_id =
        ((w.track_id.map Pair.current).getD Tracks.OceanView) := by
    intro s w h
    cases hm : s.track_hash with
    | none => cases w.track_id <;> rfl
    | some v =>
      rw [hm] at h
      have h' : trackFromHash v = none := by simpa using h
      simp only [decodeTrack, h']
      cases w.track_id <;> rfl
  refine ⟨?_, ?_, ?_⟩
  · intro ts s w h
    rw [update_loop_game_mode, updateInfallible_map_current, hmode s w h]
  · intro ts s w h
    rw [update_loop_track_id, updateInfallible_map_current, htrack s w h]
  · intro ts s w p hp hpc h
    rw [update_loop_track_id, updateInfallible_map_current, htrack s w h, hp]
    simp [hpc]

/-- A state whose last known track classification is OceanView. -/
def witWatchersC7 : Watchers :=
  { Watchers.default with track_id := some ⟨Tracks.OceanView, Tracks.OceanView⟩ }

/-- A tick reading an unmapped track-identifier hash. -/
def witSampleC7 : MemSample := { sampleNone with track_hash := some 0xDEADBEEF }

/-- Witness for claim C7 at a concrete tick. -/
theorem sticky_unknown_classification_witness :
    ((update_loop TimerState.Running witSampleC7 witWatchersC7).track_id.map Pair.current) =
      some Tracks.OceanView :=
  sticky_unknown_classification.2.2 TimerState.Running witSampleC7 witWatchersC7
    ⟨Tracks.OceanView, Tracks.OceanView⟩ rfl rfl (by decide)

/-- The ten fixed offsets sliced out of every 0x719-byte zone block. -/
def starOffsets : List Nat :=
  [0x7C, 0x138, 0x1F4, 0x2B0, 0x36C, 0x428, 0x4E4, 0x5A0, 0x65C, 0x718]

/-- Every watcher of the state holds a pair (was updated at least once). -/
def allPairsSet (w : Watchers) : Prop :=
  w.run_start.isSome = true ∧
  w.end_credits.isSome = true ∧
  w.game_mode.isSome = true ∧
  w.required_laps.isSome = true ∧
  w.total_race_time.isSome = true ∧
  w.race_completed.isSome = true ∧
  w.race_status.isSome = true ∧
  w.igt.isSome = true ∧
  w.event_type.isSome = true ∧
  w.track_id.isSome = true ∧
  w.coastal_cruise.isSome = true ∧
  w.studio_scrapes.isSome = true ∧
  w.battlezone_blast.isSome = true ∧
  w.downtown_drift.isSome = true ∧
  w.monkey_mayhem.isSome = true ∧
  w.starry_speedway.isSome = true ∧
  w.roulette_rush.isSome = true ∧
  w.canyon_carnage.isSome = true ∧
  w.snowball_shakedown.isSome = true ∧
  w.banana_boost.isSome = true ∧
  w.shinobi_scramble.isSome = true ∧
  w.seaside_scrap.isSome = true ∧
  w.tricky_traffic.isSome = true ∧
  w.studio_scurry.isSome = true ∧
  w.graffiti_groove.isSome = true ∧
  w.shaking_skies.isSome = true ∧
  w.neon_knockout.isSome = true ∧
  w.pirate_plunder.isSome = true ∧
  w.adder_assault.isSome = true ∧
  w.dreamy_drive.isSome = true ∧
  w.sanctuary_speedway.isSome = true ∧
  w.keils_carnage.isSome = true ∧
  w.carrier_crisis.isSome = true ∧
  w.sunshine_slide.isSome = true ∧
  w.rogue_rings.isSome = true ∧
  w.seaside_skirmish.isSome = true ∧
  w.shrine_time.isSome = true ∧
  w.hangar_hassle.isSome = true ∧
  w.booty_boost.isSome = true ∧
  w.racing_rangers.isSome = true ∧
  w.shinobi_showdown.isSome = true ∧
  w.ruin_run.isSome = true ∧
  w.monkey_brawl.isSome = true ∧
  w.crumbling_chaos.isSome = true ∧
  w.hatcher_hustle.isSome = true ∧
  w.death_egg_duel.isSome = true ∧
  w.undertaker_overtaker.isSome = true ∧
  w.golden_gauntlet.isSome = true ∧
  w.carnival_clash.isSome = true ∧
  w.curien_curves.isSome = true ∧
  w.molten_mayhem.isSome = true ∧
  w.speeding_seasons.isSome = true ∧
  w.burning_boost.isSome = true ∧
  w.ocean_outrun.isSome = true ∧
  w.billy_backslide.isSome = true ∧
  w.carrier_charge.isSome = true ∧
  w.jet_set_jaunt.isSome = true ∧
  w.arcade_annihilation.isSome = true ∧
  w.rapid_ruins.isSome = true ∧
  w.zombie_zoom.isSome = true ∧
  w.maracar_madness.isSome = true ∧
  w.nightmare_meander.isSome = true ∧
  w.maraca_melee.isSome = true ∧
  w.castle_chaos.isSome = true ∧
  w.volcano_velocity.isSome = true ∧
  w.ranger_rush.isSome = true ∧
  w.tokyo_takeover.isSome = true ∧
  w.fatal_finale.isSome = true

/-- Claim C9: `update_loop` is total over every combination of read
outcomes: the fixed zone-block offsets (maximum 0x718) are all within the
0x719-byte blocks, and every tick updates every watcher (each failed read
degrading to a default, sentinel, or previous value) no matter which
reads fail. -/
theorem update_loop_total_and_offsets_in_bounds :
    (∀ off ∈ starOffsets, off < 0x719) ∧
    (∀ (l : List Nat), l.length = 0x719 → ∀ off ∈ starOffsets, off < l.length) ∧
    (∀ (ts : TimerState) (s : MemSample) (w : Watchers),
      allPairsSet (update_loop ts s w)) := by
  refine ⟨by decide, ?_, ?_⟩
  · intro l hl off hoff
    rw [hl]
    exact (show ∀ o ∈ starOffsets, o < 0x719 by decide) off hoff
  · intro ts s w
    exact ⟨updateInfallible_isSome _ _, updateInfallible_isSome _ _, updateInfallible_isSome _ _, updateInfallible_isSome _ _, updateInfallible_isSome _ _, updateInfallible_isSome _ _, updateInfallible_isSome _ _, updateInfallible_isSome _ _, updateInfallible_isSome _ _, updateInfallible_isSome _ _, updateInfallible_isSome _ _, updateInfallible_isSome _ _, updateInfallible_isSome _ _, updateInfallible_isSome _ _, updateInfallible_isSome _ _, updateInfallible_isSome _ _, updateInfallible_isSome _ _, updateInfallible_isSome _ _, updateInfallible_isSome _ _, updateInfallible_isSome _ _, updateInfallible_isSome _ _, updateInfallible_isSome _ _, updateInfallible_isSome _ _, updateInfallible_isSome _ _, updateInfallible_isSome _ _, updateInfallible_isSome _ _, updateInfallible_isSome _ _, updateInfallible_isSome _ _, updateInfallible_isSome _ _, updateInfallible_isSome _ _, updateInfallible_isSome _ _, updateInfallible_isSome _ _, updateInfallible_isSome _ _, updateInfallible_isSome _ _, updateInfallible_isSome _ _, updateInfallible_isSome _ _, updateInfallible_isSome _ _, updateInfallible_isSome _ _, updateInfallible_isSome _ _, updateInfallible_isSome _ _, updateInfallible_isSome _ _, updateInfallible_isSome _ _, updateInfallible_isSome _ _, updateInfallible_isSome _ _, updateInfallible_isSome _ _, updateInfallible_isSome _ _, updateInfallible_isSome _ _, updateInfallible_isSome _ _, updateInfallible_isSome _ _, updateInfallible_isSome _ _, updateInfallible_isSome _ _, updateInfallible_isSome _ _, updateInfallible_isSome _ _, updateInfallible_isSome _ _, updateInfallible_isSome _ _, updateInfallible_isSome _ _, updateInfallible_isSome _ _, updateInfallible_isSome _ _, updateInfallible_isSome _ _, updateInfallible_isSome _ _, updateInfallible_isSome _ _, updateInfallible_isSome _ _, updateInfallible_isSome _ _, updateInfallible_isSome _ _, updateInfallible_isSome _ _, updateInfallible_isSome _ _, updateInfallible_isSome _ _, updateInfallible_isSome _ _⟩

/-- Witness for claim C9: the largest offset is in bounds and a tick on
which every read fails still updates every watcher. -/
theorem update_loop_total_and_offsets_in_bounds_witness :
    (0x718 : Nat) < 0x719 ∧
    allPairsSet (update_loop TimerState.Running sampleNone Watchers.default) :=
  ⟨update_loop_total_and_offsets_in_bounds.1 0x718 (by decide),
   update_loop_total_and_offsets_in_bounds.2.2 TimerState.Running sampleNone
     Watchers.default⟩

/-- Every duration the sampler owns or samples is a whole multiple of
10 milliseconds. -/
def tenAligned (w : Watchers) : Prop :=
  (10 : Int) ∣ w.total_igt ∧ (10 : Int) ∣ w.progress_igt ∧
  (∀ p, w.igt = some p → (10 : Int) ∣ p.old ∧ (10 : Int) ∣ p.current) ∧
  (∀ p, w.total_race_time = some p → (10 : Int) ∣ p.old ∧ (10 : Int) ∣ p.current)

/-- Claim C10: every duration built from a raw float sample is a multiple
of 10 ms (`centis * 10`), and the tick function preserves 10 ms alignment
of `total_igt`, `progress_igt` and the sampled duration pairs from the
all-zero initial state. -/
theorem igt_ten_millisecond_alignment :
    (∀ c : Int, (10 : Int) ∣ durFromCentis c) ∧
    tenAligned Watchers.default ∧
    (∀ (ts : TimerState) (s : MemSample) (w : Watchers),
      tenAligned w → tenAligned (update_loop ts s w)) := by
  have hdur : ∀ c : Int, (10 : Int) ∣ durFromCentis c := fun c =>
    ⟨c, by unfold durFromCentis; ring⟩
  refine ⟨hdur,
    ⟨dvd_zero 10, dvd_zero 10, fun p hp => by simp [Watchers.default] at hp,
      fun p hp => by simp [Watchers.default] at hp⟩, ?_⟩
  intro ts s w hw
  obtain ⟨hwt, hwp, hwi, hwtr⟩ := hw
  have higtv : (10 : Int) ∣ igtVal s w := by
    unfold igtVal
    cases hc : s.igt_centis with
    | some c => exact hdur c
    | none =>
      cases hp : w.igt with
      | some p => exact (hwi p hp).2
      | none => exact dvd_zero 10
  have htrtv : (10 : Int) ∣ totalRaceTimeVal s w := by
    unfold totalRaceTimeVal
    cases hc : s.total_race_time_centis with
    | some c => exact hdur c
    | none =>
      cases hp : w.total_race_time with
      | some p => exact (hwtr p hp).2
      | none => exact dvd_zero 10
  have higtold : (10 : Int) ∣ (w.igt.getD ⟨igtVal s w, igtVal s w⟩).current := by
    cases hp : w.igt with
    | some p => exact (hwi p hp).2
    | none => exact higtv
  have htrtold : (10 : Int) ∣
      (w.total_race_time.getD ⟨totalRaceTimeVal s w, totalRaceTimeVal s w⟩).current := by
    cases hp : w.total_race_time with
    | some p => exact (hwtr p hp).2
    | none => exact htrtv
  refine ⟨?_, ?_, ?_, ?_⟩
  · rw [update_loop_total_igt]
    unfold reconcile
    simp only [updateInfallible_eq]
    split_ifs <;> simp <;> omega
  · rw [update_loop_progress_igt]
    unfold reconcile
    simp only [updateInfallible_eq]
    split_ifs <;> simp <;> omega
  · intro p hp
    rw [update_loop_igt, updateInfallible_eq] at hp
    have h := Option.some.inj hp
    rw [← h]
    exact ⟨higtold, higtv⟩
  · intro p hp
    rw [update_loop_total_race_time, updateInfallible_eq] at hp
    have h := Option.some.inj hp
    rw [← h]
    exact ⟨htrtold, htrtv⟩

/-- Witness for claim C10: alignment holds after a concrete tick from the
initial state. -/
theorem igt_ten_millisecond_alignment_witness :
    tenAligned (update_loop TimerState.Running sampleNone Watchers.default) :=
  igt_ten_millisecond_alignment.2.2 TimerState.Running sampleNone Watchers.default
    igt_ten_millisecond_alignment.2.1

/-- Claim C8: `Addresses::init` resolves all-or-nothing: it yields an
address record exactly when the module lookup, the image-size read, the
32-bit machine check, and all ten signature scans and pointer reads
succeed, and then every field carries its resolved address; any single
failure yields `none`. -/
theorem addresses_init_all_or_nothing (env : InitEnv) :
    ((addressesInit env).isSome = true ↔
      (env.module_base.isSome = true ∧ env.size_of_image.isSome = true ∧
        env.machine_type = some MachineType.X86 ∧
        (sigResolve env env.scan_run_start 2).isSome = true ∧
        (sigResolve env env.scan_run_start_2 4).isSome = true ∧
        (sigResolve env env.scan_end_credits 3).isSome = true ∧
        (sigResolve env env.scan_mode_select 1).isSome = true ∧
        (sigResolve env env.scan_player_base 1).isSome = true ∧
        (sigResolve env env.scan_race_completed 4).isSome = true ∧
        (sigResolve env env.scan_race_status 4).isSome = true ∧
        (sigResolve env env.scan_igt 2).isSome = true ∧
        (sigResolve env env.scan_event_type 5).isSome = true ∧
        (sigResolve env env.scan_sunshine_coast 3).isSome = true)) ∧
    (∀ a, addressesInit env = some a →
      sigResolve env env.scan_run_start 2 = some a.run_start ∧
      sigResolve env env.scan_run_start_2 4 = some a.run_start_2 ∧
      sigResolve env env.scan_end_credits 3 = some a.end_credits ∧
      sigResolve env env.scan_mode_select 1 = some a.mode_select ∧
      sigResolve env env.scan_player_base 1 = some a.player_base ∧
      sigResolve env env.scan_race_completed 4 = some a.race_completed ∧
      sigResolve env env.scan_race_status 4 = some a.race_status ∧
      sigResolve env env.scan_igt 2 = some a.igt ∧
      sigResolve env env.scan_event_type 5 = some a.event_type ∧
      sigResolve env env.scan_sunshine_coast 3 = some a.sunshine_coast) := by
  unfold addressesInit
  rcases hmb : env.module_base with _ | b
  · simp [hmb]
  rcases hsz : env.size_of_image with _ | sz
  · simp [hmb, hsz]
  rcases hmt : env.machine_type with _ | mt
  · simp [hmb, hsz, hmt]
  cases mt with
  | X86_64 => simp [hmb, hsz, hmt]
  | Arm64 => simp [hmb, hsz, hmt]
  | X86 =>
    rcases hr1 : sigResolve env env.scan_run_start 2 with _ | v1
    · simp [hmb, hsz, hmt, hr1]
    rcases hr2 : sigResolve env env.scan_run_start_2 4 with _ | v2
    · simp [hmb, hsz, hmt, hr1, hr2]
    rcases hr3 : sigResolve env env.scan_end_credits 3 with _ | v3
    · simp [hmb, hsz, hmt, hr1, hr2, hr3]
    rcases hr4 : sigResolve env env.scan_mode_select 1 with _ | v4
    · simp [hmb, hsz, hmt, hr1, hr2, hr3, hr4]
    rcases hr5 : sigResolve env env.scan_player_base 1 with _ | v5
    · simp [hmb, hsz, hmt, hr1, hr2, hr3, hr4, hr5]
    rcases hr6 : sigResolve env env.scan_race_completed 4 with _ | v6
    · simp [hmb, hsz, hmt, hr1, hr2, hr3, hr4, hr5, hr6]
    rcases hr7 : sigResolve env env.scan_race_status 4 with _ | v7
    · simp [hmb, hsz, hmt, hr1, hr2, hr3, hr4, hr5, hr6, hr7]
    rcases hr8 : sigResolve env env.scan_igt 2 with _ | v8
    · simp [hmb, hsz, hmt, hr1, hr2, hr3, hr4, hr5, hr6, hr7, hr8]
    rcases hr9 : sigResolve env env.scan_event_type 5 with _ | v9
    · simp [hmb, hsz, hmt, hr1, hr2, hr3, hr4, hr5, hr6, hr7, hr8, hr9]
    rcases hr10 : sigResolve env env.scan_sunshine_coast 3 with _ | v10
    · simp [hmb, hsz, hmt, hr1, hr2, hr3, hr4, hr5, hr6, hr7, hr8, hr9, hr10]
    constructor
    · simp [hmb, hsz, hmt, hr1, hr2, hr3, hr4, hr5, hr6, hr7, hr8, hr9, hr10]
    · intro a ha
      simp only [hmb, hsz, hmt, hr1, hr2, hr3, hr4, hr5, hr6, hr7, hr8, hr9, hr10] at ha
      rw [if_neg (by simp)] at ha
      injection ha with h
      subst h
      exact ⟨rfl, rfl, rfl, rfl, rfl, rfl, rfl, rfl, rfl, rfl⟩

/-- An environment in which every lookup, scan and read succeeds. -/
def allOkEnv : InitEnv where
  module_base := some 0x400000
  size_of_image := some 0x1000
  machine_type := some MachineType.X86
  scan_run_start := some 100
  scan_run_start_2 := some 200
  scan_end_credits := some 300
  scan_mode_select := some 400
  scan_player_base := some 500
  scan_race_completed := some 600
  scan_race_status := some 700
  scan_igt := some 800
  scan_event_type := some 900
  scan_sunshine_coast := some 1000
  read32 := fun _ => some 0x5000

/-- Witness for claim C8: full resolution succeeds on `allOkEnv`. -/
theorem addresses_init_all_or_nothing_witness :
    (addressesInit allOkEnv).isSome = true :=
  (addresses_init_all_or_nothing allOkEnv).1.mpr
    ⟨rfl, rfl, rfl, rfl, rfl, rfl, rfl, rfl, rfl, rfl, rfl, rfl, rfl⟩
